import Mathlib

/-!
Shallow embedding of the session-manager / resource-store core of the
`skyrim_inventory_management_frontend` repository
(`src/contexts/gamesContext.tsx`: the `GamesProvider` resource store and the
`LoginProvider` session manager it relies on).

Modelling conventions:
* A `Game` is the server resource (`ResponseGame`): an `id` plus its payload
  (represented by `name`, the key the code inspects).
* Remote calls are suspension points: an api callback registers its promise
  continuations (`.then` / `.catch`) and returns immediately, and the
  continuations run only after the synchronous call stack has unwound.  A
  callback is therefore embedded as the eventual effect of its continuation
  chain: `Except.ok` with the updated store when the chain completes normally,
  and `Except.error` when the chain re-throws an `ApiError` (the `throw`
  inside a `.catch` handler).  Such a re-throw happens inside a microtask, so
  no `try`/`catch` on the original synchronous stack can observe it: it
  surfaces only as an unhandled promise rejection, which `GuardedRun`
  records.
* React state setters (`setGames`, `setGamesLoadingState`, `setFlashProps`,
  `setModalProps`) and the optional `onSuccess` / `onError` callbacks are
  modelled as explicit fields of `StoreState`; flash messages are accumulated
  in a list (most recent last) so that "no flash was shown" is expressible.
-/

namespace SIM

/-- Loading states from `src/utils/loadingStates` (`LOADING`, `DONE`, `ERROR`). -/
inductive LoadingState
  | LOADING
  | DONE
  | ERROR
deriving DecidableEq

/-- A server game resource (`ResponseGame`): server-assigned `id` plus payload.
The payload is represented by the `name` field, which is also the key whose
presence `createGame` tests (`if ('name' in json)`). -/
structure Game where
  id : Nat
  name : String
deriving DecidableEq

/-- The `message` of an `ApiError` is either a single string or a list of
validation messages (the code distinguishes the two with `Array.isArray`). -/
inductive ErrMessage
  | single (s : String)
  | multiple (l : List String)
deriving DecidableEq

/-- An `ApiError` (from `src/types/errors`): a status `code` and a `message`. -/
structure ApiError where
  code : Nat
  message : ErrMessage
deriving DecidableEq

/-- A JSON response body as the store inspects it: a single game object (it
has a `name` key), an array of games, or anything else. -/
inductive Json
  | game (g : Game)
  | arr (l : List Game)
  | other
deriving DecidableEq

/-- The JavaScript `'name' in json` test: true exactly for a game object. -/
def hasNameKey : Json → Bool
  | .game _ => true
  | _ => false

/-- Flash type passed to `setFlashProps`. -/
inductive FlashType
  | success
  | error
deriving DecidableEq

/-- A flash message body: a single string or a list of strings. -/
inductive FlashMessage
  | str (s : String)
  | list (l : List String)
deriving DecidableEq

/-- Arguments of a `setFlashProps` call. -/
structure FlashProps where
  hidden : Bool
  type : FlashType
  header : Option String
  message : FlashMessage
deriving DecidableEq

/-- Fixed not-found message (`NOT_FOUND_MESSAGE` in the source). -/
def NOT_FOUND_MESSAGE : String :=
  "Oops! We couldn't find the game you're looking for. Please refresh and try again."

/-- Fixed generic message (`UNEXPECTED_ERROR_MESSAGE` in the source). -/
def UNEXPECTED_ERROR_MESSAGE : String :=
  "Oops! Something unexpected went wrong. We're sorry! Please try again later."

/-- Observable state of the resource store plus the effects it emits:
the games collection, the loading state, every flash shown so far, the number
of `setModalProps({hidden: true})` calls, and how often the optional
`onSuccess` / `onError` callbacks have been invoked. -/
structure StoreState where
  games : List Game
  gamesLoadingState : LoadingState
  flashes : List FlashProps
  modalHiddenSets : Nat
  onSuccessCalls : Nat
  onErrorCalls : Nat
deriving DecidableEq

/-- The flash emitted for a successful mutation. -/
def successFlash (msg : String) : FlashProps :=
  { hidden := false, type := FlashType.success, header := none,
    message := FlashMessage.str msg }

/-- General handler for any `ApiError` (`handleApiError`, gamesContext lines
53-72): an array message becomes a validation flash whose header counts the
messages; otherwise code 404 selects the fixed not-found message and any other
code the fixed unexpected-error message. -/
def handleApiError (e : ApiError) : FlashProps :=
  match e.message with
  | .multiple l =>
      { hidden := false, type := FlashType.error,
        header := some (toString l.length
          ++ " error(s) prevented your game from being saved:"),
        message := FlashMessage.list l }
  | .single _ =>
      { hidden := false, type := FlashType.error, header := none,
        message := FlashMessage.str
          (if e.code = 404 then NOT_FOUND_MESSAGE else UNEXPECTED_ERROR_MESSAGE) }

/-- The collection transform of `updateGame` (lines 154-156):
`newGames.findIndex(el => el.id === gameId)` then `newGames[index] = json`.
JavaScript `findIndex` returns `-1` when no element matches, and assigning to
index `-1` leaves the array entries unchanged; `List.findIdx` returns
`games.length` in that case and `List.set` out of range is likewise the
identity, so the two agree. -/
def updateGamesList (games : List Game) (gameId : Nat) (json : Game) : List Game :=
  games.set (games.findIdx (fun el => el.id == gameId)) json

/-- The collection transform of `destroyGame` (line 198):
`games.filter(({id}) => id !== gameId)`. -/
def destroyGamesList (games : List Game) (gameId : Nat) : List Game :=
  games.filter (fun g => g.id != gameId)

/-- The `.then` continuation of `createGame` (lines 88-98): if the body has a
`name` key, prepend it to `games`, flash success, and run `onSuccess`;
otherwise do nothing. -/
def createGameThen (st : StoreState) (json : Json) : StoreState :=
  match json with
  | .game g =>
      { st with games := g :: st.games,
                flashes := st.flashes
                  ++ [successFlash "Success! Your game has been created."],
                onSuccessCalls := st.onSuccessCalls + 1 }
  | _ => st

/-- The `.then` continuation of `updateGame` (lines 152-168): on status 200,
replace the entry found by id, hide the modal, flash success, run `onSuccess`;
otherwise do nothing. -/
def updateGameThen (gameId : Nat) (st : StoreState) (status : Nat) (json : Game) :
    StoreState :=
  if status = 200 then
    { st with games := updateGamesList st.games gameId json,
              modalHiddenSets := st.modalHiddenSets + 1,
              flashes := st.flashes
                ++ [successFlash "Success! Your game has been updated."],
              onSuccessCalls := st.onSuccessCalls + 1 }
  else st

/-- The `.then` continuation of `destroyGame` (lines 196-207): on status 204,
filter the entry out, flash success, run `onSuccess`; otherwise do nothing. -/
def destroyGameThen (gameId : Nat) (st : StoreState) (status : Nat) : StoreState :=
  if status = 204 then
    { st with games := destroyGamesList st.games gameId,
              flashes := st.flashes
                ++ [successFlash "Success! Your game has been deleted."],
              onSuccessCalls := st.onSuccessCalls + 1 }
  else st

/-- The `.then` continuation of `fetchGames` (lines 121-126): if the body is
an array, replace the collection with it and set `DONE`; otherwise nothing. -/
def fetchGamesThen (st : StoreState) (json : Json) : StoreState :=
  match json with
  | .arr l => { st with games := l, gamesLoadingState := LoadingState.DONE }
  | _ => st

/-- The `.catch` handler shared by `createGame`, `updateGame` and
`destroyGame` (for example lines 99-104): a 401 is re-thrown (`Except.error`,
carrying the store as it then was); any other error is flashed via
`handleApiError` and `onError` is run. -/
def mutationCatch (st : StoreState) (e : ApiError) :
    Except (ApiError × StoreState) StoreState :=
  if e.code = 401 then Except.error (e, st)
  else Except.ok
    { st with flashes := st.flashes ++ [handleApiError e],
              onErrorCalls := st.onErrorCalls + 1 }

/-- The `.catch` handler of `fetchGames` (lines 127-133): a 401 is re-thrown;
any other error is flashed via `handleApiError`, the collection is emptied and
the loading state becomes `ERROR`. -/
def fetchGamesCatch (st : StoreState) (e : ApiError) :
    Except (ApiError × StoreState) StoreState :=
  if e.code = 401 then Except.error (e, st)
  else Except.ok
    { st with flashes := st.flashes ++ [handleApiError e],
              games := [],
              gamesLoadingState := LoadingState.ERROR }

/-- A remote API outcome: the promise resolves with a value or rejects with an
`ApiError`. -/
inductive ApiResponse (α : Type)
  | resolve (v : α)
  | reject (e : ApiError)
deriving DecidableEq

/-- Session state of the `LoginProvider`: whether a `user` is present and the
currently stored `token` (the credential). -/
structure SessionState where
  user : Bool
  token : Option String
deriving DecidableEq

/-- Observable outcome of one `withTokenRefresh` call: the final store state,
the tokens each invocation of the wrapped callback received (in order), how
many fresh-credential requests (`user.getIdToken(true)`) were issued, how many
times `signOutWithGoogle` was called, the token stored afterwards, and the
`ApiError`s re-thrown inside promise continuations, which nothing handles
(unhandled promise rejections). -/
structure GuardedRun where
  store : StoreState
  invocations : List String
  refreshRequests : Nat
  signOutCalls : Nat
  storedToken : Option String
  unhandledRejections : List ApiError
deriving DecidableEq

/-- The session manager guard `withTokenRefresh` (LoginProvider lines
278-307).  `if (!user || !token) return` is the no-op guard.  Inside the
`while (retryAttempt < 2)` loop, `fn(currentToken)` only registers the api
promise continuations and returns at once, so the `try` body always reaches
`break` and the loop ends after its first iteration; the `catch` branch — and
with it the `getIdToken(true)` refresh, the retry and the
`signOutWithGoogle()` call — is unreachable, because the `throw` inside the
api callback's `.catch` runs later, in a microtask, and becomes an unhandled
promise rejection.  The embedding runs the callback's eventual effect
(`fn token st`) and records a re-thrown error as an unhandled rejection. -/
def withTokenRefresh (sess : SessionState)
    (fn : String → StoreState → Except (ApiError × StoreState) StoreState)
    (st : StoreState) : GuardedRun :=
  match sess.user, sess.token with
  | true, some token =>
      match fn token st with
      | .ok st1 => ⟨st1, [token], 0, 0, some token, []⟩
      | .error (e, st1) => ⟨st1, [token], 0, 0, some token, [e]⟩
  | _, _ => ⟨st, [], 0, 0, sess.token, []⟩

/-- The callback `createGame` hands to `withTokenRefresh` (lines 86-105):
call `postGames(body, idToken)` (its outcome for a given token is
`responses idToken`), then run the create `.then` continuation on resolution
or the shared `.catch` on rejection. -/
def createGameCall (responses : String → ApiResponse Json)
    (idToken : String) (st : StoreState) :
    Except (ApiError × StoreState) StoreState :=
  match responses idToken with
  | .resolve json => Except.ok (createGameThen st json)
  | .reject e => mutationCatch st e

/-- The callback `updateGame` hands to `withTokenRefresh` (lines 150-177):
`patchGame(gameId, attributes, idToken)` resolves with a status and a body. -/
def updateGameCall (gameId : Nat) (responses : String → ApiResponse (Nat × Game))
    (idToken : String) (st : StoreState) :
    Except (ApiError × StoreState) StoreState :=
  match responses idToken with
  | .resolve (status, json) => Except.ok (updateGameThen gameId st status json)
  | .reject e => mutationCatch st e

/-- The callback `destroyGame` hands to `withTokenRefresh` (lines 194-216):
`deleteGame(gameId, idToken)` resolves with a status and no body. -/
def destroyGameCall (gameId : Nat) (responses : String → ApiResponse Nat)
    (idToken : String) (st : StoreState) :
    Except (ApiError × StoreState) StoreState :=
  match responses idToken with
  | .resolve status => Except.ok (destroyGameThen gameId st status)
  | .reject e => mutationCatch st e

/-- The callback `fetchGames` hands to `withTokenRefresh` (lines 116-135):
it first sets the loading state to `LOADING`, then calls `getGames(idToken)`. -/
def fetchGamesCall (responses : String → ApiResponse Json)
    (idToken : String) (st : StoreState) :
    Except (ApiError × StoreState) StoreState :=
  let st0 := { st with gamesLoadingState := LoadingState.LOADING }
  match responses idToken with
  | .resolve json => Except.ok (fetchGamesThen st0 json)
  | .reject e => fetchGamesCatch st0 e

/-- `createGame` as a whole: its callback run through `withTokenRefresh`. -/
def createGame (sess : SessionState)
    (responses : String → ApiResponse Json) (st : StoreState) : GuardedRun :=
  withTokenRefresh sess (createGameCall responses) st

/-- `updateGame` as a whole: its callback run through `withTokenRefresh`. -/
def updateGame (gameId : Nat) (sess : SessionState)
    (responses : String → ApiResponse (Nat × Game)) (st : StoreState) : GuardedRun :=
  withTokenRefresh sess (updateGameCall gameId responses) st

/-- `destroyGame` as a whole: its callback run through `withTokenRefresh`. -/
def destroyGame (gameId : Nat) (sess : SessionState)
    (responses : String → ApiResponse Nat) (st : StoreState) : GuardedRun :=
  withTokenRefresh sess (destroyGameCall gameId responses) st

/-- `fetchGames` as a whole: its callback run through `withTokenRefresh`. -/
def fetchGames (sess : SessionState)
    (responses : String → ApiResponse Json) (st : StoreState) : GuardedRun :=
  withTokenRefresh sess (fetchGamesCall responses) st

/-- One resource-store operation together with the server response that
reconciles the collection, at the level of the games list alone. -/
inductive StoreOp
  | load (serverList : List Game)
  | create (serverGame : Game)
  | update (gameId : Nat) (serverGame : Game)
  | destroy (gameId : Nat)
deriving DecidableEq

/-- The collection change each successful operation applies: `load` replaces
the collection (`setGames(json)`), `create` prepends (`[json, ...games]`),
`update` goes through `updateGamesList`, `destroy` through
`destroyGamesList`. -/
def applyOp (games : List Game) : StoreOp → List Game
  | .load l => l
  | .create g => g :: games
  | .update gameId g => updateGamesList games gameId g
  | .destroy gameId => destroyGamesList games gameId

/-- Apply a sequence of successful operations in order. -/
def applyOps (games : List Game) : List StoreOp → List Game
  | [] => games
  | op :: ops => applyOps (applyOp games op) ops

/-- The id discipline the server responses are assumed to obey: a `list`
response carries pairwise-distinct ids, a `create` response carries an id not
already in the collection, and an `update` response carries the requested id. -/
def validOp (games : List Game) : StoreOp → Prop
  | .load l => (l.map Game.id).Nodup
  | .create g => g.id ∉ games.map Game.id
  | .update gameId g => g.id = gameId
  | .destroy _ => True

/-- Every operation of the trace obeys the id discipline at the collection
state it is applied to. -/
def validTrace (games : List Game) : List StoreOp → Prop
  | [] => True
  | op :: ops => validOp games op ∧ validTrace (applyOp games op) ops

instance (games : List Game) (op : StoreOp) : Decidable (validOp games op) :=
  match op with
  | .load l => inferInstanceAs (Decidable (l.map Game.id).Nodup)
  | .create g => inferInstanceAs (Decidable (g.id ∉ games.map Game.id))
  | .update gameId g => inferInstanceAs (Decidable (g.id = gameId))
  | .destroy _ => inferInstanceAs (Decidable True)

instance instDecidableValidTrace :
    (games : List Game) → (ops : List StoreOp) → Decidable (validTrace games ops)
  | _, [] => Decidable.isTrue trivial
  | games, op :: ops =>
      have : Decidable (validTrace (applyOp games op) ops) :=
        instDecidableValidTrace (applyOp games op) ops
      inferInstanceAs (Decidable (validOp games op ∧ validTrace (applyOp games op) ops))

/-- A concrete store state used to instantiate theorems with hypotheses. -/
def demoStore : StoreState :=
  { games := [], gamesLoadingState := LoadingState.LOADING, flashes := [],
    modalHiddenSets := 0, onSuccessCalls := 0, onErrorCalls := 0 }

/-- C1: evaluation of the code at the claim's failing input.  When the first
(and only) invocation of the operation wrapped by `withTokenRefresh` re-throws
AuthorizationRejected (API error code 401), the program issues no
fresh-credential request, keeps the stored credential unchanged, never invokes
the operation again (the invocation list is the single first token), never
signs out, and the 401 is dropped as an unhandled promise rejection — contrary
to the claimed refresh-and-retry. -/
theorem withTokenRefresh_first_reject_no_refresh_no_retry
    (tok : String)
    (fn : String → StoreState → Except (ApiError × StoreState) StoreState)
    (st st1 : StoreState) (e : ApiError)
    (hfail : fn tok st = Except.error (e, st1)) (hcode : e.code = 401) :
    (withTokenRefresh ⟨true, some tok⟩ fn st).refreshRequests = 0 ∧
    (withTokenRefresh ⟨true, some tok⟩ fn st).storedToken = some tok ∧
    (withTokenRefresh ⟨true, some tok⟩ fn st).invocations = [tok] ∧
    (withTokenRefresh ⟨true, some tok⟩ fn st).signOutCalls = 0 ∧
    (withTokenRefresh ⟨true, some tok⟩ fn st).unhandledRejections = [e] := by
  simp [withTokenRefresh, hfail]

/-- Witness for C1 at a concrete session, operation and store. -/
theorem withTokenRefresh_first_reject_no_refresh_no_retry_witness :
    (withTokenRefresh ⟨true, some "t0"⟩
      (fun _ st => Except.error (⟨401, ErrMessage.single "Unauthorized"⟩, st))
      demoStore).refreshRequests = 0 ∧
    (withTokenRefresh ⟨true, some "t0"⟩
      (fun _ st => Except.error (⟨401, ErrMessage.single "Unauthorized"⟩, st))
      demoStore).storedToken = some "t0" ∧
    (withTokenRefresh ⟨true, some "t0"⟩
      (fun _ st => Except.error (⟨401, ErrMessage.single "Unauthorized"⟩, st))
      demoStore).invocations = ["t0"] ∧
    (withTokenRefresh ⟨true, some "t0"⟩
      (fun _ st => Except.error (⟨401, ErrMessage.single "Unauthorized"⟩, st))
      demoStore).signOutCalls = 0 ∧
    (withTokenRefresh ⟨true, some "t0"⟩
      (fun _ st => Except.error (⟨401, ErrMessage.single "Unauthorized"⟩, st))
      demoStore).unhandledRejections = [⟨401, ErrMessage.single "Unauthorized"⟩] :=
  withTokenRefresh_first_reject_no_refresh_no_retry "t0" _ demoStore demoStore
    ⟨401, ErrMessage.single "Unauthorized"⟩ rfl rfl

/-- C2: when the user or the token is absent, `withTokenRefresh` is a no-op:
the wrapped operation is never invoked, no refresh is requested, no sign-out
occurs, and the store (hence any flash an error would surface through) is
untouched. -/
theorem withTokenRefresh_absent_session_noop
    (sess : SessionState)
    (fn : String → StoreState → Except (ApiError × StoreState) StoreState)
    (st : StoreState)
    (h : sess.user = false ∨ sess.token = none) :
    withTokenRefresh sess fn st =
      { store := st, invocations := [], refreshRequests := 0,
        signOutCalls := 0, storedToken := sess.token,
        unhandledRejections := [] } := by
  obtain ⟨u, t⟩ := sess
  cases u <;> cases t <;> first
    | rfl
    | (rcases h with h | h <;> simp at h)

/-- Witness for C2 at a concrete absent session. -/
theorem withTokenRefresh_absent_session_noop_witness :
    withTokenRefresh ⟨false, none⟩
      (fun _ st => Except.ok st) demoStore =
      { store := demoStore, invocations := [], refreshRequests := 0,
        signOutCalls := 0, storedToken := none,
        unhandledRejections := [] } :=
  withTokenRefresh_absent_session_noop ⟨false, none⟩ _ demoStore (Or.inl rfl)

/-- C3: evaluation of the code at the claim's failing input.  When the API
rejects every credential with code 401, a `createGame` call never reaches a
second attempt (a single invocation with the original token), and
`signOutWithGoogle` is invoked zero times — not once as claimed: the first 401
is dropped as an unhandled promise rejection before the guard's catch could
run.  The store is untouched, so no error flash is shown either. -/
theorem createGame_auth_reject_never_signs_out
    (tok : String) (responses : String → ApiResponse Json)
    (st : StoreState) (e : ApiError)
    (h1 : ∀ t, responses t = ApiResponse.reject e) (hc : e.code = 401) :
    (createGame ⟨true, some tok⟩ responses st).signOutCalls = 0 ∧
    (createGame ⟨true, some tok⟩ responses st).store = st ∧
    (createGame ⟨true, some tok⟩ responses st).invocations = [tok] ∧
    (createGame ⟨true, some tok⟩ responses st).unhandledRejections = [e] := by
  simp [createGame, withTokenRefresh, createGameCall, mutationCatch, h1, hc]

/-- Witness for C3 at a concrete store with an API that always rejects 401. -/
theorem createGame_auth_reject_never_signs_out_witness :
    (createGame ⟨true, some "t0"⟩
      (fun _ => ApiResponse.reject ⟨401, ErrMessage.single "Expired token"⟩)
      demoStore).signOutCalls = 0 ∧
    (createGame ⟨true, some "t0"⟩
      (fun _ => ApiResponse.reject ⟨401, ErrMessage.single "Expired token"⟩)
      demoStore).store = demoStore ∧
    (createGame ⟨true, some "t0"⟩
      (fun _ => ApiResponse.reject ⟨401, ErrMessage.single "Expired token"⟩)
      demoStore).invocations = ["t0"] ∧
    (createGame ⟨true, some "t0"⟩
      (fun _ => ApiResponse.reject ⟨401, ErrMessage.single "Expired token"⟩)
      demoStore).unhandledRejections = [⟨401, ErrMessage.single "Expired token"⟩] :=
  createGame_auth_reject_never_signs_out "t0" _ demoStore
    ⟨401, ErrMessage.single "Expired token"⟩ (fun _ => rfl) rfl

/-- C5: on a successful create response (a body with a `name` key),
`createGame` places the returned resource at index 0, the collection grows by
exactly one, and every previously present entry is unchanged, shifted one
position right. -/
theorem createGameThen_prepends (st : StoreState) (g : Game) :
    (createGameThen st (Json.game g)).games.length = st.games.length + 1 ∧
    (createGameThen st (Json.game g)).games.get? 0 = some g ∧
    ∀ i : Nat, (createGameThen st (Json.game g)).games.get? (i + 1) = st.games.get? i := by
  refine ⟨?_, rfl, fun i => rfl⟩
  simp [createGameThen]

/-- C9: `handleApiError` classifies an error whose message is a list of N
strings as a validation flash carrying exactly those N messages and a header
counting them; any other error is flashed with the fixed not-found message
when its code is 404 and with the fixed unexpected-error message otherwise. -/
theorem handleApiError_classifies (c : Nat) (l : List String) (s : String) :
    handleApiError ⟨c, ErrMessage.multiple l⟩ =
      { hidden := false, type := FlashType.error,
        header := some (toString l.length
          ++ " error(s) prevented your game from being saved:"),
        message := FlashMessage.list l } ∧
    handleApiError ⟨c, ErrMessage.single s⟩ =
      { hidden := false, type := FlashType.error, header := none,
        message := FlashMessage.str
          (if c = 404 then NOT_FOUND_MESSAGE else UNEXPECTED_ERROR_MESSAGE) } :=
  ⟨rfl, rfl⟩

/-- C10: each mutation's success continuation fires only on its exact response
shape — create: the body has a `name` key; update: status exactly 200;
destroy: status exactly 204 — and on any other resolved response the store
(collection, loading state, flashes, modal, callbacks) is left untouched,
while on the matching shape the `onSuccess` callback runs (once). -/
theorem mutation_success_gated_on_shape (st : StoreState) (gameId : Nat)
    (g : Game) (json : Json) (status : Nat) :
    (hasNameKey json = false → createGameThen st json = st) ∧
    (status ≠ 200 → updateGameThen gameId st status g = st) ∧
    (status ≠ 204 → destroyGameThen gameId st status = st) ∧
    (createGameThen st (Json.game g)).onSuccessCalls = st.onSuccessCalls + 1 ∧
    (updateGameThen gameId st 200 g).onSuccessCalls = st.onSuccessCalls + 1 ∧
    (destroyGameThen gameId st 204).onSuccessCalls = st.onSuccessCalls + 1 := by
  refine ⟨?_, ?_, ?_, ?_, ?_, ?_⟩
  · intro h
    cases json <;> simp [createGameThen] <;> simp [hasNameKey] at h
  · intro h
    simp [updateGameThen, h]
  · intro h
    simp [destroyGameThen, h]
  · simp [createGameThen]
  · simp [updateGameThen]
  · simp [destroyGameThen]

theorem updateGamesList_of_no_match (games : List Game) (gameId : Nat) (json : Game)
    (h : ∀ g ∈ games, g.id ≠ gameId) :
    updateGamesList games gameId json = games := by
  induction games with
  | nil => rfl
  | cons g gs ih =>
      have hg : (g.id == gameId) = false :=
        beq_eq_false_iff_ne.mpr (h g (List.mem_cons_self g gs))
      unfold updateGamesList
      rw [List.findIdx_cons, hg, cond_false, List.set_cons_succ]
      have := ih (fun x hx => h x (List.mem_cons_of_mem g hx))
      unfold updateGamesList at this
      rw [this]

theorem updateGamesList_eq_map (games : List Game) (gameId : Nat) (json : Game)
    (hnd : (games.map Game.id).Nodup) (hmem : gameId ∈ games.map Game.id) :
    updateGamesList games gameId json =
      games.map (fun g => if g.id = gameId then json else g) := by
  induction games with
  | nil => cases hmem
  | cons g gs ih =>
      rw [List.map_cons] at hnd
      have hnd1 := (List.nodup_cons.mp hnd).1
      have hnd2 := (List.nodup_cons.mp hnd).2
      by_cases hg : g.id = gameId
      · have hgb : (g.id == gameId) = true := beq_iff_eq.mpr hg
        unfold updateGamesList
        rw [List.findIdx_cons, hgb, cond_true, List.set_cons_zero,
          List.map_cons, if_pos hg]
        have hrest : ∀ x ∈ gs, (if x.id = gameId then json else x) = x := by
          intro x hx
          rw [if_neg]
          intro hxe
          exact hnd1 (hg ▸ hxe ▸ List.mem_map_of_mem Game.id hx)
        rw [List.map_congr_left hrest, List.map_id']
      · have hgb : (g.id == gameId) = false := beq_eq_false_iff_ne.mpr hg
        have hmem2 : gameId ∈ gs.map Game.id := by
          rcases List.mem_cons.mp hmem with h | h
          · exact absurd h.symm hg
          · exact h
        unfold updateGamesList
        rw [List.findIdx_cons, hgb, cond_false, List.set_cons_succ,
          List.map_cons, if_neg hg]
        have := ih hnd2 hmem2
        unfold updateGamesList at this
        rw [this]

/-- C6: on a successful update response (status 200), `updateGame` replaces
exactly the entry whose id matches the requested one with the server-returned
body, leaves every other entry unchanged in the same position, and leaves the
collection length unchanged; in particular updating game 7 with name "X" in
the collection with ids 5, 7, 9 yields that collection with only the id-7
entry replaced. -/
theorem updateGame_replaces_matching_entry (st : StoreState) (gameId : Nat)
    (json : Game)
    (hnd : (st.games.map Game.id).Nodup)
    (hmem : gameId ∈ st.games.map Game.id) :
    ((updateGameThen gameId st 200 json).games.length = st.games.length ∧
     ∀ k : Nat, ∀ g : Game, st.games.get? k = some g →
       (updateGameThen gameId st 200 json).games.get? k =
         some (if g.id = gameId then json else g)) ∧
    (updateGameThen 7
        { demoStore with games := [⟨5, "A"⟩, ⟨7, "B"⟩, ⟨9, "C"⟩] }
        200 ⟨7, "X"⟩).games = [⟨5, "A"⟩, ⟨7, "X"⟩, ⟨9, "C"⟩] := by
  have hgames : (updateGameThen gameId st 200 json).games =
      updateGamesList st.games gameId json := by
    simp [updateGameThen]
  refine ⟨⟨?_, ?_⟩, rfl⟩
  · rw [hgames]
    simp [updateGamesList]
  · intro k g hk
    have hmap := updateGamesList_eq_map st.games gameId json hnd hmem
    rw [hgames, hmap, List.get?_map, hk]
    rfl

/-- Witness for C6 at the concrete scenario collection. -/
theorem updateGame_replaces_matching_entry_witness :
    ((updateGameThen 7
        { demoStore with games := [⟨5, "A"⟩, ⟨7, "B"⟩, ⟨9, "C"⟩] }
        200 ⟨7, "X"⟩).games.length =
      ({ demoStore with
          games := [⟨5, "A"⟩, ⟨7, "B"⟩, ⟨9, "C"⟩] } : StoreState).games.length ∧
     ∀ k : Nat, ∀ g : Game,
       ({ demoStore with
           games := [⟨5, "A"⟩, ⟨7, "B"⟩, ⟨9, "C"⟩] } : StoreState).games.get? k = some g →
       (updateGameThen 7
          { demoStore with games := [⟨5, "A"⟩, ⟨7, "B"⟩, ⟨9, "C"⟩] }
          200 ⟨7, "X"⟩).games.get? k =
         some (if g.id = 7 then ⟨7, "X"⟩ else g)) ∧
    (updateGameThen 7
        { demoStore with games := [⟨5, "A"⟩, ⟨7, "B"⟩, ⟨9, "C"⟩] }
        200 ⟨7, "X"⟩).games = [⟨5, "A"⟩, ⟨7, "X"⟩, ⟨9, "C"⟩] :=
  updateGame_replaces_matching_entry
    { demoStore with games := [⟨5, "A"⟩, ⟨7, "B"⟩, ⟨9, "C"⟩] } 7 ⟨7, "X"⟩
    (by decide) (by decide)

/-- C7: on a successful delete response (status 204) for a collection holding
exactly one entry with the requested id, `destroyGame` shrinks the collection
by exactly one, no entry with that id remains, and the other entries are
unchanged (same multiplicities) and in the same relative order (a sublist of
the original); in particular destroying game 7 in the collection with ids
5, 7, 9 leaves the entries with ids 5 and 9. -/
theorem destroyGame_removes_entry (st : StoreState) (gameId : Nat)
    (hone : st.games.countP (fun g => g.id == gameId) = 1) :
    ((destroyGameThen gameId st 204).games.length + 1 = st.games.length ∧
     (∀ g ∈ (destroyGameThen gameId st 204).games, g.id ≠ gameId) ∧
     (destroyGameThen gameId st 204).games.Sublist st.games ∧
     ∀ g : Game, g.id ≠ gameId →
       (destroyGameThen gameId st 204).games.count g = st.games.count g) ∧
    (destroyGameThen 7
        { demoStore with games := [⟨5, "A"⟩, ⟨7, "B"⟩, ⟨9, "C"⟩] } 204).games
      = [⟨5, "A"⟩, ⟨9, "C"⟩] := by
  have hgames : (destroyGameThen gameId st 204).games =
      st.games.filter (fun g => g.id != gameId) := by
    simp [destroyGameThen, destroyGamesList]
  refine ⟨⟨?_, ?_, ?_, ?_⟩, rfl⟩
  · rw [hgames]
    have hlen : (st.games.filter (fun g => g.id != gameId)).length =
        st.games.countP (fun g => g.id != gameId) :=
      (List.countP_eq_length_filter (p := fun g : Game => g.id != gameId)
        st.games).symm
    have hsplit := List.length_eq_countP_add_countP
      (p := fun g : Game => g.id == gameId) st.games
    have hco : st.games.countP (fun g : Game => g.id != gameId) =
        st.games.countP (fun g : Game => decide ¬((g.id == gameId) = true)) := by
      apply List.countP_congr
      intro g _
      simp [bne]
    rw [hlen, hco]
    omega
  · intro g hg
    rw [hgames] at hg
    exact bne_iff_ne.mp (List.mem_filter.mp hg).2
  · rw [hgames]
    exact List.filter_sublist st.games
  · intro g hg
    rw [hgames]
    exact List.count_filter (by simpa using hg)

/-- Witness for C7 at the concrete scenario collection. -/
theorem destroyGame_removes_entry_witness :
    ((destroyGameThen 7
        { demoStore with games := [⟨5, "A"⟩, ⟨7, "B"⟩, ⟨9, "C"⟩] } 204).games.length + 1 =
      ({ demoStore with
          games := [⟨5, "A"⟩, ⟨7, "B"⟩, ⟨9, "C"⟩] } : StoreState).games.length ∧
     (∀ g ∈ (destroyGameThen 7
        { demoStore with games := [⟨5, "A"⟩, ⟨7, "B"⟩, ⟨9, "C"⟩] } 204).games,
        g.id ≠ 7) ∧
     (destroyGameThen 7
        { demoStore with games := [⟨5, "A"⟩, ⟨7, "B"⟩, ⟨9, "C"⟩] } 204).games.Sublist
       ({ demoStore with
           games := [⟨5, "A"⟩, ⟨7, "B"⟩, ⟨9, "C"⟩] } : StoreState).games ∧
     ∀ g : Game, g.id ≠ 7 →
       (destroyGameThen 7
          { demoStore with games := [⟨5, "A"⟩, ⟨7, "B"⟩, ⟨9, "C"⟩] } 204).games.count g =
       ({ demoStore with
           games := [⟨5, "A"⟩, ⟨7, "B"⟩, ⟨9, "C"⟩] } : StoreState).games.count g) ∧
    (destroyGameThen 7
        { demoStore with games := [⟨5, "A"⟩, ⟨7, "B"⟩, ⟨9, "C"⟩] } 204).games
      = [⟨5, "A"⟩, ⟨9, "C"⟩] :=
  destroyGame_removes_entry
    { demoStore with games := [⟨5, "A"⟩, ⟨7, "B"⟩, ⟨9, "C"⟩] } 7 (by decide)

/-- C8: a `fetchGames` call whose server response is a list replaces the local
collection with exactly that list and sets the loading state to `DONE`; one
whose response is a non-authorization failure empties the collection and sets
the loading state to `ERROR`. -/
theorem fetchGames_replaces_or_clears (tok : String)
    (responses : String → ApiResponse Json) (st : StoreState) :
    (∀ l : List Game, responses tok = ApiResponse.resolve (Json.arr l) →
      (fetchGames ⟨true, some tok⟩ responses st).store.games = l ∧
      (fetchGames ⟨true, some tok⟩ responses st).store.gamesLoadingState =
        LoadingState.DONE) ∧
    (∀ e : ApiError, responses tok = ApiResponse.reject e → e.code ≠ 401 →
      (fetchGames ⟨true, some tok⟩ responses st).store.games = [] ∧
      (fetchGames ⟨true, some tok⟩ responses st).store.gamesLoadingState =
        LoadingState.ERROR) := by
  constructor
  · intro l hl
    simp [fetchGames, withTokenRefresh, fetchGamesCall, hl, fetchGamesThen]
  · intro e he hcode
    simp [fetchGames, withTokenRefresh, fetchGamesCall, he, fetchGamesCatch, hcode]

theorem applyOp_preserves_nodup (games : List Game) (op : StoreOp)
    (hnd : (games.map Game.id).Nodup) (hv : validOp games op) :
    ((applyOp games op).map Game.id).Nodup := by
  cases op with
  | load l => exact hv
  | create g =>
      rw [applyOp, List.map_cons]
      exact List.nodup_cons.mpr ⟨hv, hnd⟩
  | update gameId g =>
      by_cases hmem : gameId ∈ games.map Game.id
      · rw [applyOp, updateGamesList_eq_map games gameId g hnd hmem, List.map_map]
        have hfun : (Game.id ∘ fun x : Game => if x.id = gameId then g else x) =
            Game.id := by
          funext x
          by_cases hx : x.id = gameId
          · simp only [Function.comp_apply, if_pos hx]
            rw [hv, hx]
          · simp only [Function.comp_apply, if_neg hx]
        rw [hfun]
        exact hnd
      · rw [applyOp, updateGamesList_of_no_match games gameId g]
        · exact hnd
        · intro x hx hxe
          exact hmem (hxe ▸ List.mem_map_of_mem Game.id hx)
  | destroy gameId =>
      rw [applyOp, destroyGamesList]
      exact List.Nodup.sublist ((List.filter_sublist games).map Game.id) hnd

theorem applyOps_preserves_nodup (games : List Game) (ops : List StoreOp)
    (hnd : (games.map Game.id).Nodup) (hv : validTrace games ops) :
    ((applyOps games ops).map Game.id).Nodup := by
  induction ops generalizing games with
  | nil => exact hnd
  | cons op ops ih =>
      exact ih (applyOp games op) (applyOp_preserves_nodup games op hnd hv.1) hv.2

theorem validTrace_take :
    ∀ (n : Nat) (games : List Game) (ops : List StoreOp),
      validTrace games ops → validTrace games (ops.take n)
  | 0, _, _, _ => trivial
  | _ + 1, _, [], h => h
  | n + 1, games, op :: ops, h => ⟨h.1, validTrace_take n (applyOp games op) ops h.2⟩

/-- C4: starting from a collection with pairwise-distinct ids, and with every
server response respecting the id discipline (`validTrace`: list responses
carry distinct ids, create responses carry a fresh id, update responses carry
the requested id), the collection reached after every prefix of a sequence of
load / create / update / destroy operations still has pairwise-distinct ids,
i.e. at most one entry per id. -/
theorem storeOps_preserve_unique_ids (games : List Game) (ops : List StoreOp)
    (n : Nat) (hnd : (games.map Game.id).Nodup) (hv : validTrace games ops) :
    ((applyOps games (ops.take n)).map Game.id).Nodup :=
  applyOps_preserves_nodup games (ops.take n) hnd (validTrace_take n games ops hv)

/-- Witness for C4 on a concrete four-operation trace. -/
theorem storeOps_preserve_unique_ids_witness :
    ((applyOps [⟨1, "A"⟩]
        ([StoreOp.create ⟨2, "B"⟩, StoreOp.update 2 ⟨2, "B2"⟩,
          StoreOp.destroy 1, StoreOp.load [⟨7, "Z"⟩, ⟨8, "W"⟩]].take 4)).map
      Game.id).Nodup :=
  storeOps_preserve_unique_ids [⟨1, "A"⟩]
    [StoreOp.create ⟨2, "B"⟩, StoreOp.update 2 ⟨2, "B2"⟩,
      StoreOp.destroy 1, StoreOp.load [⟨7, "Z"⟩, ⟨8, "W"⟩]] 4
    (by decide) (by decide)

end SIM
